import Mathlib

/-!
# Verification of the dds core against its specification

This file gives a shallow embedding, in Lean 4, of the core algorithms of the
dds package manager and build driver, translated from the C++ sources:

* `src/dds/usage_reqs.cpp` — the usage-requirement map and its transitive
  `include_paths` / `link_paths` collection;
* `src/dds/toolchain/from_dds.cpp` — parsing a toolchain configuration from an
  abstract key/value pair list, with default deduction from `Compiler-ID`;
* `src/dds/toolchain/toolchain.cpp` — toolchain realization, command
  synthesis, and the builtin toolchain-id recognizer `toolchain::get_builtin`;
* the repository implementation (`repo.cpp`) — `add_sdist` import semantics
  and the `solve` candidate-merge rule;
* the build-plan implementation (`plan.cpp` / `library.cpp`) —
  `library_plan::create` and the parallel worker runner `parallel_run`.

External collaborators that the sources consume only through narrow
interfaces (the libman key/value reader, the shell tokenizer, the semver
library, `std::filesystem`) are modelled from the specification; each such
definition carries a doc comment saying so.  Everything else is translated
directly from the C++ source, statement by statement.

Theorems at the end of the file settle the frozen claims C1..C10.
-/

deriving instance DecidableEq for Except

namespace Dds

/-! ## Usage-requirement map (`src/dds/usage_reqs.cpp`)

`lm::usage` is a `(namespace, name)` pair; `lm::library` carries include
paths, an optional linkable path, and `uses`/`links` edges.  The map itself
is `std::map<library_key, lm::library>`; we model it as an association list
with unique keys, looked up by first match. -/

/-- A usage reference `(namespace_, name)`. -/
abbrev UKey := String × String

/-- `lm::library`: the usage-requirement facts attached to one library. -/
structure LmLib where
  includePaths : List String := []
  linkablePath : Option String := none
  uses : List UKey := []
  links : List UKey := []
  deriving Repr, DecidableEq

/-- The usage-requirement map `mapping<(namespace,name) -> lm_library>`. -/
abbrev UsageMap := List (UKey × LmLib)

/-- Errors raised by the usage-requirement map. -/
inductive UErr where
  | unknownUsage (k : UKey)
  deriving Repr, DecidableEq

/-- `usage_requirement_map::get`: find the library for a key, if present
(`usage_reqs.cpp` lines 13-19). -/
def umGet (m : UsageMap) (k : UKey) : Option LmLib :=
  (m.find? (fun p => p.1 = k)).map (fun p => p.2)

/-- Fuel-indexed evaluation of `usage_requirement_map::include_paths`
(`usage_reqs.cpp` lines 62-76).  The C++ function recurses over the `uses`
edges with no cycle guard; `none` means the recursion did not finish within
`fuel` nested calls, so the C++ computation diverges on an input exactly when
every fuel bound returns `none`.  The body mirrors the source: look up the
key (unknown key throws `unknown_usage_name`), extend the result with the
node's own `include_paths`, then recurse into each `uses` edge in order. -/
def includePathsF : Nat → UsageMap → UKey → Option (Except UErr (List String))
  | 0, _, _ => none
  | fuel + 1, m, k =>
    match umGet m k with
    | none => some (.error (.unknownUsage k))
    | some lib =>
      let rec loop : List UKey → List String → Option (Except UErr (List String))
        | [], acc => some (.ok acc)
        | d :: ds, acc =>
          match includePathsF fuel m d with
          | none => none
          | some (.error e) => some (.error e)
          | some (.ok ps) => loop ds (acc ++ ps)
      loop lib.uses lib.includePaths

/-- Fuel-indexed evaluation of `usage_requirement_map::link_paths`
(`usage_reqs.cpp` lines 42-60): start from `linkable_path` (if any), then
recurse into every `uses` edge, then into every `links` edge, concatenating
results; no cycle guard. -/
def linkPathsF : Nat → UsageMap → UKey → Option (Except UErr (List String))
  | 0, _, _ => none
  | fuel + 1, m, k =>
    match umGet m k with
    | none => some (.error (.unknownUsage k))
    | some lib =>
      let rec loop : List UKey → List String → Option (Except UErr (List String))
        | [], acc => some (.ok acc)
        | d :: ds, acc =>
          match linkPathsF fuel m d with
          | none => none
          | some (.error e) => some (.error e)
          | some (.ok ps) => loop ds (acc ++ ps)
      match loop lib.uses (match lib.linkablePath with | some p => [p] | none => []) with
      | none => none
      | some (.error e) => some (.error e)
      | some (.ok acc) => loop lib.links acc

/-- A one-node usage map whose single library `a/a` uses itself: the
smallest cyclic `uses` graph. -/
def selfUseMap : UsageMap :=
  [(("a", "a"), { includePaths := ["inc"], uses := [("a", "a")] })]

/-- A one-node usage map whose single library `a/a` links itself: the
smallest cyclic `links` graph. -/
def selfLinkMap : UsageMap :=
  [(("a", "a"), { linkablePath := some "lib.a", links := [("a", "a")] })]

/-! ## Package identity and source distributions

`package_id` and the semantic version come from external libraries that are
consumed through the interface described in spec §3/§4.1; the structures
below follow that description. -/

/-- Modelled from the spec: a semantic version `(major, minor, patch, pre?,
build?)` (spec §3); the pre-release tag is kept as its textual form and
compared as a string (the full identifier rules live in the external semver
library), and the build tag is ignored by comparison, so it is omitted. -/
structure Version where
  major : Nat
  minor : Nat
  patch : Nat
  pre : Option String := none
  deriving Repr, DecidableEq, Inhabited

/-- Modelled from the spec: semver order — lexicographic on
`(major, minor, patch)`, and a version with a pre-release tag precedes the
same version without one. -/
def verLt (a b : Version) : Bool :=
  if a.major ≠ b.major then a.major < b.major
  else if a.minor ≠ b.minor then a.minor < b.minor
  else if a.patch ≠ b.patch then a.patch < b.patch
  else match a.pre, b.pre with
    | some _, none => true
    | none, _ => false
    | some x, some y => x < y

/-- Modelled from the spec: render a version as `major.minor.patch[-pre]`. -/
def verStr (v : Version) : String :=
  toString v.major ++ "." ++ toString v.minor ++ "." ++ toString v.patch ++
    (match v.pre with | some p => "-" ++ p | none => "")

/-- Modelled from the spec: `package_id = (name, version)` (spec §3). -/
structure PackageId where
  name : String
  version : Version
  deriving Repr, DecidableEq, Inhabited

/-- Modelled from the spec: total order on `package_id` — name
lexicographic, then semver order (spec §3). -/
def pidLt (a b : PackageId) : Bool :=
  if a.name ≠ b.name then a.name < b.name else verLt a.version b.version

/-- Modelled from the spec: `package_id::to_string() = name@version`. -/
def pidStr (p : PackageId) : String :=
  p.name ++ "@" ++ verStr p.version

/-- Modelled from the spec: a dependency `(name, version_range)`; the range
grammar is external, so the range is kept in its textual form (spec §3). -/
structure Dependency where
  name : String
  range : String
  deriving Repr, DecidableEq

/-- Modelled from the spec: an sdist manifest `{ pkg_id, dependencies }`. -/
structure Manifest where
  pkgId : PackageId
  dependencies : List Dependency := []
  deriving Repr, DecidableEq

/-- Modelled from the spec: `sdist = { manifest, path }`; the on-disk tree
is summarized by the manifest it reloads to (spec §3). -/
structure Sdist where
  manifest : Manifest
  path : List String
  deriving Repr, DecidableEq

/-! ## Local repository (`repo.cpp`, provided as `src/unnamed/part_000`)

The filesystem under the repository root is modelled as an association list
from directory basename to the sdist tree stored there (summarized by its
manifest), plus a separate slot for the `.tmp-import` staging directory
(its name starts with `.`, so listing ignores it).  `sdist_set` is declared
in `repo.hpp`, which is not among the provided sources; per spec §3 it is a
set of sdists keyed by `package_id`, and per spec §4.3 step 4 the reloaded
sdist is inserted into it. -/

/-- State of the `.tmp-import` staging directory: a complete copy of some
sdist tree, or the partial remains of a failed copy. -/
inductive TmpDir where
  | complete (m : Manifest)
  | broken
  deriving Repr, DecidableEq

/-- A repository handle together with the on-disk state under its root. -/
structure Repository where
  writeEnabled : Bool
  root : List String
  fsEntries : List (String × Manifest)
  tmpDir : Option TmpDir := none
  sdists : List Sdist
  deriving Repr, DecidableEq

/-- Look up the directory with the given basename under the root. -/
def lookupFs (es : List (String × Manifest)) (dirname : String) : Option Manifest :=
  (es.find? (fun p => p.1 = dirname)).map (fun p => p.2)

/-- `fs::remove_all(dest)`: drop the directory with the given basename. -/
def removeFs (es : List (String × Manifest)) (dirname : String) : List (String × Manifest) :=
  es.filter (fun p => p.1 ≠ dirname)

/-- `fs::rename(tmp, dest)`: bind `dirname` to the moved tree. -/
def setFs (es : List (String × Manifest)) (dirname : String) (m : Manifest) :
    List (String × Manifest) :=
  removeFs es dirname ++ [(dirname, m)]

/-- Modelled from the spec: the in-memory `sdist_set` insertion keyed by
`package_id` (`repo.hpp` is not among the provided sources); after spec
§4.3 step 4 the reloaded sdist is the set's entry for its id. -/
def insertSdist (l : List Sdist) (s : Sdist) : List Sdist :=
  l.filter (fun t => t.manifest.pkgId ≠ s.manifest.pkgId) ++ [s]

/-- `sdist::from_directory(p)` (spec §4.2): reload the tree stored under
`dirname`, validating `basename(p) == pkg_id.to_string()`. -/
def fromDirectory (root : List String) (dirname : String) (m : Manifest) :
    Option Sdist :=
  if dirname = pidStr m.pkgId then some ⟨m, root ++ [dirname]⟩ else none

/-- `repository::add_sdist`'s `if_exists` policy argument. -/
inductive IfExists where
  | throwExc
  | ignore
  | replace
  deriving Repr, DecidableEq

/-- Outcome classification for `add_sdist`. -/
inductive AddErr where
  | notWriteableFatal
  | sdistExists
  | copyFailed
  | layoutErr
  deriving Repr, DecidableEq

/-- Log lines emitted by `add_sdist`. -/
inductive LogMsg where
  | warnExists
  | infoReplacing
  | infoExported
  deriving Repr, DecidableEq

/-- Filesystem operations performed by `add_sdist`, in order. -/
inductive FsOp where
  | removeTmpOp
  | createDirsOp
  | copyOp
  | removeDestOp
  | renameOp
  deriving Repr, DecidableEq

/-- Result of `add_sdist`: the error raised (if any), the state at the
point of return or throw, and the filesystem operations and log lines in
the order they happened. -/
structure AddOutcome where
  err : Option AddErr
  repo : Repository
  ops : List FsOp
  logs : List LogMsg
  deriving Repr, DecidableEq

/-- `repository::add_sdist(sd, ife_action)` (`repo.cpp` lines 70-104),
parameterized by whether the recursive `fs::copy` into `.tmp-import`
succeeds (`copyOk = false` models an I/O error thrown mid-copy, leaving the
staging directory partial and propagating the exception).  Steps, in source
order: reject a non-writeable handle (`std::terminate`, modelled as a fatal
error); compute `dest = root / pkg_id.to_string()`; if `dest` exists apply
the policy; remove a pre-existing `.tmp-import`; `create_directories`;
copy `sd.path` into `.tmp-import`; if `dest` still exists remove it; rename
`.tmp-import` to `dest`; reload `dest` and insert it into the in-memory
set. -/
def addSdistGen (copyOk : Bool) (r : Repository) (sd : Sdist) (pol : IfExists) :
    AddOutcome :=
  if ¬ r.writeEnabled then
    ⟨some .notWriteableFatal, r, [], []⟩
  else
    let destName := pidStr sd.manifest.pkgId
    let destExists := (lookupFs r.fsEntries destName).isSome
    let early : Option AddOutcome :=
      if destExists then
        match pol with
        | .throwExc => some ⟨some .sdistExists, r, [], []⟩
        | .ignore => some ⟨none, r, [], [.warnExists]⟩
        | .replace => none
      else none
    match early with
    | some out => out
    | none =>
      let logs0 : List LogMsg := if destExists then [.infoReplacing] else []
      let ops0 : List FsOp :=
        (if r.tmpDir.isSome then [.removeTmpOp] else []) ++ [.createDirsOp]
      if ¬ copyOk then
        ⟨some .copyFailed, { r with tmpDir := some .broken }, ops0 ++ [.copyOp], logs0⟩
      else
        let ops1 := ops0 ++ [.copyOp] ++ (if destExists then [.removeDestOp] else [])
        let fs1 := setFs r.fsEntries destName sd.manifest
        match fromDirectory r.root destName sd.manifest with
        | none =>
          ⟨some .layoutErr, { r with fsEntries := fs1, tmpDir := none },
            ops1 ++ [.renameOp], logs0⟩
        | some reloaded =>
          ⟨none,
            { r with fsEntries := fs1, tmpDir := none,
                     sdists := insertSdist r.sdists reloaded },
            ops1 ++ [.renameOp], logs0 ++ [.infoExported]⟩

/-- `repository::add_sdist` with the copy succeeding. -/
def addSdist (r : Repository) (sd : Sdist) (pol : IfExists) : AddOutcome :=
  addSdistGen true r sd pol

/-! ## Candidate merge in `repository::solve` (`repo.cpp` lines 114-136)

The `versions_of` provider callback builds `mine` (ids of the in-memory
sdists whose name matches, in set order), concatenates the catalog result,
then runs `ranges::sort(all, std::less<>{})` followed by
`ranges::unique(all, std::less<>{})`.  `ranges::unique` here names the
range-v3 *algorithm* (not the `actions::unique` container action): it
reorders elements in place and returns an iterator to the new logical end,
and that iterator is discarded, so the vector keeps its full length.  We
model the call by its effect on the vector's contents. -/

/-- Insertion of `x` into a list sorted by `le`. -/
def insertLe (le : α → α → Bool) (x : α) : List α → List α
  | [] => [x]
  | y :: ys => if le x y then x :: y :: ys else y :: insertLe le x ys

/-- `ranges::sort(all, std::less<>{})`: sort ascending by the strict order.
The comparison is a strict total order whose equivalent elements are equal
values, so every correct sort produces this same list; we use insertion
sort. -/
def sortLe (le : α → α → Bool) : List α → List α
  | [] => []
  | x :: xs => insertLe le x (sortLe le xs)

/-- `ranges::adjacent_find(first, last, pred)`: index of the first adjacent
pair satisfying `pred`, as used by the `ranges::unique` algorithm. -/
def adjFindIdx (pred : α → α → Bool) : List α → Option Nat
  | a :: b :: rest =>
    if pred a b then some 0 else (adjFindIdx pred (b :: rest)).map (· + 1)
  | _ => none

/-- The compaction loop of the `ranges::unique` algorithm: for `i` from the
element after `next(first)` up to `last`, when `pred(a[first], a[i])` fails
the kept cursor advances and `a[i]` is moved there (moving an element onto
itself when the positions coincide). `steps` counts the remaining values of
`i`. -/
def uniqueLoop [Inhabited α] (pred : α → α → Bool) :
    Nat → Array α → Nat → Nat → Array α
  | 0, arr, _, _ => arr
  | steps + 1, arr, first, i =>
    if ¬ pred (arr.get! first) (arr.get! i) then
      uniqueLoop pred steps (arr.set! (first + 1) (arr.get! i)) (first + 1) (i + 1)
    else
      uniqueLoop pred steps arr first (i + 1)

/-- Contents of the vector after `ranges::unique(v, pred)` runs: the
algorithm first locates the first adjacent pair satisfying `pred`, then
runs the compaction loop; the returned new-end iterator is discarded by the
caller, so every element of the vector remains. -/
def uniqueAlgoContent [Inhabited α] (pred : α → α → Bool) (l : List α) : List α :=
  match adjFindIdx pred l with
  | none => l
  | some k => (uniqueLoop pred (l.length - (k + 2)) l.toArray k (k + 2)).toList

/-- The `versions_of` provider callback handed to the solver by
`repository::solve` (`repo.cpp` lines 118-128): filter the in-memory sdists
by name, project to ids, concatenate the catalog's list, sort with
`std::less`, then call `ranges::unique` with `std::less<>{}` as the
predicate and drop its result. -/
def versionsOf (sdists : List Sdist) (catalog : List PackageId)
    (name : String) : List PackageId :=
  let mine := (sdists.filter (fun sd => sd.manifest.pkgId.name = name)).map
    (fun sd => sd.manifest.pkgId)
  let all := mine ++ catalog
  let sorted := sortLe (fun a b => ¬ pidLt b a) all
  uniqueAlgoContent pidLt sorted

/-! ## Build planning (`library.cpp`, provided in `src/unnamed/part_001`)

`library_plan::create` appears twice in the sources with incompatible
shapes; spec §9 designates the richer variant (the one that builds
`link_executable_plan`s for app and test sources) as authoritative, and the
claims cite its lines, so that variant is the one embedded here.
Filesystem paths are modelled as segment lists; `std::filesystem::path`
stem/filename semantics are modelled on the final segment. -/

/-- Classification of a source file (`source_kind`). -/
inductive SourceKind where
  | header
  | source
  | app
  | test
  deriving Repr, DecidableEq, Inhabited

/-- A classified source file. -/
structure SourceFile where
  path : List String
  kind : SourceKind
  deriving Repr, DecidableEq, Inhabited

/-- Modelled from the spec: the shared compile-rules value
(`shared_compile_file_rules` lives outside the provided sources); the
fields the planner touches are the warning toggle and the usage edges. -/
structure CompileRules where
  enableWarnings : Bool := false
  uses : List UKey := []
  deriving Repr, DecidableEq, Inhabited

/-- A library manifest: name plus `uses`/`links` usage references. -/
structure LibManifest where
  name : String
  uses : List UKey := []
  links : List UKey := []
  deriving Repr, DecidableEq

/-- The library model handed to the planner: its source directory (whether
it exists, its path, and the collected sources), its manifest, and its base
compile rules. -/
structure Library where
  srcDirExists : Bool
  srcDirPath : List String
  sources : List SourceFile
  manifest : LibManifest
  baseRules : CompileRules := {}
  deriving Repr, DecidableEq

/-- `compile_file_plan(rules, source, qualifier, subdir)`. -/
structure CompileFilePlan where
  rules : CompileRules
  source : SourceFile
  qualifier : String
  subdirPath : List String
  deriving Repr, DecidableEq, Inhabited

/-- `create_archive_plan(name, out_dir, compile_files)`. -/
structure CreateArchivePlan where
  name : String
  outDir : List String
  compileFiles : List CompileFilePlan
  deriving Repr, DecidableEq

/-- `link_executable_plan{in_libs, links, compile_plan, subdir, name}`. -/
structure LinkExePlan where
  linkLibs : List (List String)
  links : List UKey
  compile : CompileFilePlan
  subdir : List String
  outputName : String
  deriving Repr, DecidableEq, Inhabited

/-- The plan for one library. -/
structure LibraryPlan where
  lib : Library
  createArchive : Option CreateArchivePlan
  linkExecutables : List LinkExePlan
  deriving Repr, DecidableEq

/-- `library_build_params`: the fields the richer `library_plan::create`
reads. -/
structure LibraryBuildParams where
  outSubdir : List String
  enableWarnings : Bool := false
  testUses : List UKey := []
  testLinkFiles : List (List String) := []
  deriving Repr, DecidableEq

/-- Index of the last `.` in a character list, if any. -/
def lastDotIdxAux : List Char → Nat → Option Nat
  | [], _ => none
  | c :: rest, i =>
    match lastDotIdxAux rest (i + 1) with
    | some j => some j
    | none => if c = '.' then some i else none

/-- Modelled from the spec: `std::filesystem::path::stem()` on a filename —
the filename with its final extension removed; a lone leading dot and the
special names `.` and `..` are kept whole. -/
def stemStr (s : String) : String :=
  if s = "." ∨ s = ".." then s
  else
    match lastDotIdxAux s.toList 0 with
    | none => s
    | some 0 => s
    | some i => String.mk (s.toList.take i)

/-- The filename (final segment) of a path. -/
def filenameOf (p : List String) : String :=
  (p.getLast?).getD ""

/-- Modelled from the spec: `fs::relative(p, base)` for the planner's use,
where `p` is a descendant of `base`; other inputs are returned unchanged
(the source only calls it on descendants of the library source dir). -/
def relativeSegs (p base : List String) : List String :=
  if base.isPrefixOf p then p.drop base.length else p

/-- The richer `library_plan::create(lib, params)` (`library.cpp` lines
202-297): classify collected sources into test/app/lib groups; derive the
compile rules; build the lib-source compile plans and, when non-empty, the
archive plan; then for each app and test source build a
`link_executable_plan` whose compile lands in `out_subdir/obj`, whose
subdirectory is `out_subdir[/test]/relative(parent, src_dir)`, and whose
output basename is `source.path.stem().stem()`. -/
def libraryPlanCreate (lib : Library) (params : LibraryBuildParams) : LibraryPlan :=
  let allSources := if lib.srcDirExists then lib.sources else []
  let testSources := allSources.filter (fun s => s.kind = .test)
  let appSources := allSources.filter (fun s => s.kind = .app)
  let libSources := allSources.filter (fun s => s.kind = .source)
  let compileRules :=
    { lib.baseRules with
        enableWarnings := params.enableWarnings
        uses := lib.manifest.uses }
  let libCompileFiles : List CompileFilePlan := libSources.map
    (fun sf => ⟨compileRules, sf, lib.manifest.name, params.outSubdir ++ ["obj"]⟩)
  let createArchive : Option CreateArchivePlan :=
    if libCompileFiles.isEmpty then none
    else some ⟨lib.manifest.name, params.outSubdir, libCompileFiles⟩
  let links := lib.manifest.uses ++ lib.manifest.links
  let linkLibs : List (List String) := []
  let testLinkLibs := params.testLinkFiles
  let testRules := { compileRules with uses := compileRules.uses ++ params.testUses }
  let testLinks := links ++ params.testUses
  let linkExecutables := (appSources ++ testSources).map (fun src =>
    let isTest := src.kind = .test
    let subdirBase := if isTest then params.outSubdir ++ ["test"] else params.outSubdir
    let subdir := subdirBase ++ relativeSegs src.path.dropLast lib.srcDirPath
    let rules := if isTest then testRules else compileRules
    { linkLibs := if isTest then testLinkLibs else linkLibs
      links := if isTest then testLinks else links
      compile := ⟨rules, src, lib.manifest.name, params.outSubdir ++ ["obj"]⟩
      subdir := subdir
      outputName := stemStr (stemStr (filenameOf src.path)) : LinkExePlan })
  { lib := lib, createArchive := createArchive, linkExecutables := linkExecutables }

/-! ## Toolchain configuration (`src/dds/toolchain/from_dds.cpp`)

`parse_toolchain_dds(pairs, context)` reads an abstract key/value pair list
through `lm::read` with one handler per recognized key (tried in
declaration order, `from_dds.cpp` lines 112-178), then deduces every
toolchain attribute that was not overridden, erroring when a deduction
needs the absent `Compiler-ID`.  `read_argv` and `read_argv_acc` are local
to the source file and translated from it; `lm::read_opt`, `lm::read_bool`
and the unknown-key rejection belong to the external libman reader and are
modelled from the spec (single-value keys error on duplicates, booleans are
`True`/`False`, unknown keys are an error). -/

/-- Errors raised while reading or realizing a toolchain document. -/
inductive TcErr where
  | unknownKey (k : String)
  | dupKey (k : String)
  | dupArgvKey (k : String)
  | badBool (k : String)
  | unknownCompilerId (s : String)
  | unknownDepsMode (s : String)
  | unknownCVersion (s : String)
  | unknownCxxVersion (s : String)
  | noCompilerToUse
  | cannotDeduce (what : String)
  | unableToDeduce (what : String)
  | assertFailed
  deriving Repr, DecidableEq

/-- The single-quote, double-quote and backslash characters, named to keep
the tokenizer below readable. -/
def shQuoteS : Char := Char.ofNat 39

/-- The double-quote character. -/
def shQuoteD : Char := Char.ofNat 34

/-- The backslash character. -/
def shBackslash : Char := Char.ofNat 92

/-- Modelled from the spec: the POSIX-ish shell tokenizer
(`dds/util/shlex` is not among the provided sources): whitespace separates
tokens; single and double quotes group; backslash escapes the next
character (spec §9). -/
def splitShellAux : List Char → Option Char → Option (List Char) →
    List String → List String
  | [], _, none, toks => toks
  | [], _, some t, toks => toks ++ [String.mk t]
  | c :: rest, some q, curr, toks =>
    if c = q then splitShellAux rest none (some (curr.getD [])) toks
    else if c = shBackslash ∧ q = shQuoteD then
      match rest with
      | d :: rest2 => splitShellAux rest2 (some q) (some (curr.getD [] ++ [d])) toks
      | [] => splitShellAux [] (some q) (some (curr.getD [] ++ [c])) toks
    else splitShellAux rest (some q) (some (curr.getD [] ++ [c])) toks
  | c :: rest, none, curr, toks =>
    if c = ' ' ∨ c = '\t' then
      match curr with
      | some t => splitShellAux rest none none (toks ++ [String.mk t])
      | none => splitShellAux rest none none toks
    else if c = shQuoteS ∨ c = shQuoteD then
      splitShellAux rest (some c) (some (curr.getD [])) toks
    else if c = shBackslash then
      match rest with
      | d :: rest2 => splitShellAux rest2 none (some (curr.getD [] ++ [d])) toks
      | [] => splitShellAux [] none (some (curr.getD [] ++ [c])) toks
    else splitShellAux rest none (some (curr.getD [] ++ [c])) toks

/-- `split_shell_string`. -/
def splitShell (s : String) : List String :=
  splitShellAux s.toList none none []

/-- The recognized toolchain keys, one constructor per handler in the
`lm::read` call (`from_dds.cpp` lines 112-178). -/
inductive TKey where
  | compilerIdK | cCompilerK | cxxCompilerK | cVersionK | cxxVersionK
  | includeTemplateK | externalIncludeTemplateK | defineTemplateK
  | warningFlagsK | flagsK | cFlagsK | cxxFlagsK | linkFlagsK
  | optimizeK | debugK | compilerLauncherK | depsModeK
  | cCompileFileK | cxxCompileFileK | createArchiveK | linkExecutableK
  | archivePfxK | archiveSfxK | objectPfxK | objectSfxK | exePfxK | exeSfxK
  deriving Repr, DecidableEq

/-- Map a key string to its handler, in the handlers' declaration order;
`none` falls through to `lm_reject_dym` (unknown key). -/
def keyTagOf (k : String) : Option TKey :=
  if k = "Compiler-ID" then some .compilerIdK
  else if k = "C-Compiler" then some .cCompilerK
  else if k = "C++-Compiler" then some .cxxCompilerK
  else if k = "C-Version" then some .cVersionK
  else if k = "C++-Version" then some .cxxVersionK
  else if k = "Include-Template" then some .includeTemplateK
  else if k = "External-Include-Template" then some .externalIncludeTemplateK
  else if k = "Define-Template" then some .defineTemplateK
  else if k = "Warning-Flags" then some .warningFlagsK
  else if k = "Flags" then some .flagsK
  else if k = "C-Flags" then some .cFlagsK
  else if k = "C++-Flags" then some .cxxFlagsK
  else if k = "Link-Flags" then some .linkFlagsK
  else if k = "Optimize" then some .optimizeK
  else if k = "Debug" then some .debugK
  else if k = "Compiler-Launcher" then some .compilerLauncherK
  else if k = "Deps-Mode" then some .depsModeK
  else if k = "C-Compile-File" then some .cCompileFileK
  else if k = "C++-Compile-File" then some .cxxCompileFileK
  else if k = "Create-Archive" then some .createArchiveK
  else if k = "Link-Executable" then some .linkExecutableK
  else if k = "Archive-Prefix" then some .archivePfxK
  else if k = "Archive-Suffix" then some .archiveSfxK
  else if k = "Object-Prefix" then some .objectPfxK
  else if k = "Object-Suffix" then some .objectSfxK
  else if k = "Executable-Prefix" then some .exePfxK
  else if k = "Executable-Suffix" then some .exeSfxK
  else none

/-- The option slots filled while reading a toolchain document
(`from_dds.cpp` lines 84-110).  Note that there is a slot for
`external_include_template` but — mirroring line 123 of the source — the
`External-Include-Template` handler writes `include_template`, so the
`externalIncludeTemplate` slot is never filled by reading. -/
structure ToolchainOpts where
  compilerId : Option String := none
  cCompiler : Option String := none
  cxxCompiler : Option String := none
  cVersion : Option String := none
  cxxVersion : Option String := none
  archivePfxOpt : Option String := none
  archiveSfxOpt : Option String := none
  objectPfxOpt : Option String := none
  objectSfxOpt : Option String := none
  exePfxOpt : Option String := none
  exeSfxOpt : Option String := none
  depsModeStr : Option String := none
  doDebug : Option Bool := none
  doOptimize : Option Bool := none
  includeTemplate : Option (List String) := none
  externalIncludeTemplate : Option (List String) := none
  defineTemplate : Option (List String) := none
  warningFlags : Option (List String) := none
  flags : Option (List String) := none
  cFlags : Option (List String) := none
  cxxFlags : Option (List String) := none
  linkFlags : Option (List String) := none
  cCompileFile : Option (List String) := none
  cxxCompileFile : Option (List String) := none
  createArchive : Option (List String) := none
  linkExecutable : Option (List String) := none
  compileLauncher : Option (List String) := none
  deriving Repr, DecidableEq

/-- Modelled from the spec: `lm::read_opt` — a single-value string key;
a second occurrence is a duplicate-specification error. -/
def setOptStr (k : String) (cur : Option String) (v : String) :
    Except TcErr (Option String) :=
  match cur with
  | some _ => .error (.dupKey k)
  | none => .ok (some v)

/-- `read_argv` (`from_dds.cpp` lines 51-66): a single-value argv key —
a second occurrence raises "More than one value provided for key", else
the shell-split value is stored. -/
def setArgvOnce (k : String) (cur : Option (List String)) (v : String) :
    Except TcErr (Option (List String)) :=
  match cur with
  | some _ => .error (.dupArgvKey k)
  | none => .ok (some (splitShell v))

/-- `read_argv_acc` (`from_dds.cpp` lines 34-49): initialize the slot on
first sight, then append the shell-split value. -/
def accArgv (cur : Option (List String)) (v : String) : Option (List String) :=
  some (cur.getD [] ++ splitShell v)

/-- Modelled from the spec: `lm::read_bool` — boolean values are `True`
or `False`; a second occurrence is a duplicate error. -/
def setBoolOnce (k : String) (cur : Option Bool) (v : String) :
    Except TcErr (Option Bool) :=
  match cur with
  | some _ => .error (.dupKey k)
  | none =>
    if v = "True" then .ok (some true)
    else if v = "False" then .ok (some false)
    else .error (.badBool k)

/-- Apply one key/value pair to the option slots: dispatch to the handler
for the key, or reject an unknown key. -/
def applyPair (o : ToolchainOpts) (kv : String × String) :
    Except TcErr ToolchainOpts :=
  match keyTagOf kv.1 with
  | none => .error (.unknownKey kv.1)
  | some .compilerIdK => do
    pure { o with compilerId := ← setOptStr kv.1 o.compilerId kv.2 }
  | some .cCompilerK => do
    pure { o with cCompiler := ← setOptStr kv.1 o.cCompiler kv.2 }
  | some .cxxCompilerK => do
    pure { o with cxxCompiler := ← setOptStr kv.1 o.cxxCompiler kv.2 }
  | some .cVersionK => do
    pure { o with cVersion := ← setOptStr kv.1 o.cVersion kv.2 }
  | some .cxxVersionK => do
    pure { o with cxxVersion := ← setOptStr kv.1 o.cxxVersion kv.2 }
  | some .includeTemplateK => do
    pure { o with includeTemplate := ← setArgvOnce kv.1 o.includeTemplate kv.2 }
  | some .externalIncludeTemplateK => do
    pure { o with includeTemplate := ← setArgvOnce kv.1 o.includeTemplate kv.2 }
  | some .defineTemplateK => do
    pure { o with defineTemplate := ← setArgvOnce kv.1 o.defineTemplate kv.2 }
  | some .warningFlagsK => pure { o with warningFlags := accArgv o.warningFlags kv.2 }
  | some .flagsK => pure { o with flags := accArgv o.flags kv.2 }
  | some .cFlagsK => pure { o with cFlags := accArgv o.cFlags kv.2 }
  | some .cxxFlagsK => pure { o with cxxFlags := accArgv o.cxxFlags kv.2 }
  | some .linkFlagsK => pure { o with linkFlags := accArgv o.linkFlags kv.2 }
  | some .optimizeK => do
    pure { o with doOptimize := ← setBoolOnce kv.1 o.doOptimize kv.2 }
  | some .debugK => do
    pure { o with doDebug := ← setBoolOnce kv.1 o.doDebug kv.2 }
  | some .compilerLauncherK => do
    pure { o with compileLauncher := ← setArgvOnce kv.1 o.compileLauncher kv.2 }
  | some .depsModeK => do
    pure { o with depsModeStr := ← setOptStr kv.1 o.depsModeStr kv.2 }
  | some .cCompileFileK => do
    pure { o with cCompileFile := ← setArgvOnce kv.1 o.cCompileFile kv.2 }
  | some .cxxCompileFileK => do
    pure { o with cxxCompileFile := ← setArgvOnce kv.1 o.cxxCompileFile kv.2 }
  | some .createArchiveK => do
    pure { o with createArchive := ← setArgvOnce kv.1 o.createArchive kv.2 }
  | some .linkExecutableK => do
    pure { o with linkExecutable := ← setArgvOnce kv.1 o.linkExecutable kv.2 }
  | some .archivePfxK => do
    pure { o with archivePfxOpt := ← setOptStr kv.1 o.archivePfxOpt kv.2 }
  | some .archiveSfxK => do
    pure { o with archiveSfxOpt := ← setOptStr kv.1 o.archiveSfxOpt kv.2 }
  | some .objectPfxK => do
    pure { o with objectPfxOpt := ← setOptStr kv.1 o.objectPfxOpt kv.2 }
  | some .objectSfxK => do
    pure { o with objectSfxOpt := ← setOptStr kv.1 o.objectSfxOpt kv.2 }
  | some .exePfxK => do
    pure { o with exePfxOpt := ← setOptStr kv.1 o.exePfxOpt kv.2 }
  | some .exeSfxK => do
    pure { o with exeSfxOpt := ← setOptStr kv.1 o.exeSfxOpt kv.2 }

/-- `lm::read`: apply the handlers to each pair in order, stopping at the
first error. -/
def readPairs (o : ToolchainOpts) : List (String × String) →
    Except TcErr ToolchainOpts
  | [] => .ok o
  | kv :: rest =>
    match applyPair o kv with
    | .error e => .error e
    | .ok o2 => readPairs o2 rest

/-- Read a whole document into the option slots. -/
def parseOpts (pairs : List (String × String)) : Except TcErr ToolchainOpts :=
  readPairs {} pairs

/-- `compiler_id_e_t` (`from_dds.cpp` lines 182-187). -/
inductive CompilerKind where
  | noCompId
  | msvc
  | clang
  | gnu
  deriving Repr, DecidableEq

/-- `file_deps_mode`. -/
inductive DepsModeT where
  | gnuDeps
  | msvcDeps
  | noDeps
  deriving Repr, DecidableEq

/-- `language` (as used by `get_compiler` / `get_flags`). -/
inductive Lang where
  | c
  | cxx
  deriving Repr, DecidableEq

/-- `c_version_e_t` (`from_dds.cpp` lines 251-257). -/
inductive CVer where
  | cNone | c89 | c99 | c11 | c18
  deriving Repr, DecidableEq

/-- `cxx_version_e_t` (`from_dds.cpp` lines 274-282). -/
inductive CxxVer where
  | cxxNone | cxx98 | cxx03 | cxx11 | cxx14 | cxx17 | cxx20
  deriving Repr, DecidableEq

/-- Classify `Compiler-ID` (`from_dds.cpp` lines 188-200): absent is
allowed, `MSVC`/`GNU`/`Clang` select a kind, anything else errors. -/
def compilerKindOf : Option String → Except TcErr CompilerKind
  | none => .ok .noCompId
  | some s =>
    if s = "MSVC" then .ok .msvc
    else if s = "GNU" then .ok .gnu
    else if s = "Clang" then .ok .clang
    else .error (.unknownCompilerId s)

/-- Compute the dependency-file mode (`from_dds.cpp` lines 207-225):
default by compiler kind when `Deps-Mode` is absent, else parse
`GNU`/`MSVC`/`None`. -/
def depsModeOf (s : Option String) (kind : CompilerKind) : Except TcErr DepsModeT :=
  match s with
  | none =>
    if kind = .gnu ∨ kind = .clang then .ok .gnuDeps
    else if kind = .msvc then .ok .msvcDeps
    else .ok .noDeps
  | some s =>
    if s = "GNU" then .ok .gnuDeps
    else if s = "MSVC" then .ok .msvcDeps
    else if s = "None" then .ok .noDeps
    else .error (.unknownDepsMode s)

/-- Parse `C-Version` (`from_dds.cpp` lines 258-272). -/
def cVerOf : Option String → Except TcErr CVer
  | none => .ok .cNone
  | some s =>
    if s = "C89" then .ok .c89
    else if s = "C99" then .ok .c99
    else if s = "C11" then .ok .c11
    else if s = "C18" then .ok .c18
    else .error (.unknownCVersion s)

/-- Parse `C++-Version` (`from_dds.cpp` lines 283-301). -/
def cxxVerOf : Option String → Except TcErr CxxVer
  | none => .ok .cxxNone
  | some s =>
    if s = "C++98" then .ok .cxx98
    else if s = "C++03" then .ok .cxx03
    else if s = "C++11" then .ok .cxx11
    else if s = "C++14" then .ok .cxx14
    else if s = "C++17" then .ok .cxx17
    else if s = "C++20" then .ok .cxx20
    else .error (.unknownCxxVersion s)

/-- `c_version_flag_table` (`from_dds.cpp` lines 303-319).  The map holds
entries for every `(msvc|gnu|clang) × version` pair; the `noCompId` row is
unreachable (its only caller errors first — the `assert` at line 326). -/
def cVersionFlagTable (kind : CompilerKind) (v : CVer) : List String :=
  match kind, v with
  | .msvc, _ => []
  | .gnu, .cNone => []
  | .gnu, .c89 => ["-std=c89"]
  | .gnu, .c99 => ["-std=c99"]
  | .gnu, .c11 => ["-std=c11"]
  | .gnu, .c18 => ["-std=c18"]
  | .clang, .cNone => []
  | .clang, .c89 => ["-std=c89"]
  | .clang, .c99 => ["-std=c99"]
  | .clang, .c11 => ["-std=c11"]
  | .clang, .c18 => ["-std=c18"]
  | .noCompId, _ => []

/-- `cxx_version_flag_table` (`from_dds.cpp` lines 330-352). -/
def cxxVersionFlagTable (kind : CompilerKind) (v : CxxVer) : List String :=
  match kind, v with
  | .msvc, .cxxNone => []
  | .msvc, .cxx98 => []
  | .msvc, .cxx03 => []
  | .msvc, .cxx11 => []
  | .msvc, .cxx14 => ["/std:c++14"]
  | .msvc, .cxx17 => ["/std:c++17"]
  | .msvc, .cxx20 => ["/std:c++latest"]
  | .gnu, .cxxNone => []
  | .gnu, .cxx98 => ["-std=c++98"]
  | .gnu, .cxx03 => ["-std=c++03"]
  | .gnu, .cxx11 => ["-std=c++11"]
  | .gnu, .cxx14 => ["-std=c++14"]
  | .gnu, .cxx17 => ["-std=c++17"]
  | .gnu, .cxx20 => ["-std=c++20"]
  | .clang, .cxxNone => []
  | .clang, .cxx98 => ["-std=c++98"]
  | .clang, .cxx03 => ["-std=c++03"]
  | .clang, .cxx11 => ["-std=c++11"]
  | .clang, .cxx14 => ["-std=c++14"]
  | .clang, .cxx17 => ["-std=c++17"]
  | .clang, .cxx20 => ["-std=c++20"]
  | .noCompId, _ => []

/-- `get_c_version_flags` (`from_dds.cpp` lines 321-328): needs
`Compiler-ID`. -/
def getCVersionFlags (o : ToolchainOpts) (kind : CompilerKind) (v : CVer) :
    Except TcErr (List String) :=
  if o.compilerId.isNone then .error (.unableToDeduce "flags for C-Version")
  else .ok (cVersionFlagTable kind v)

/-- `get_cxx_version_flags` (`from_dds.cpp` lines 354-361). -/
def getCxxVersionFlags (o : ToolchainOpts) (kind : CompilerKind) (v : CxxVer) :
    Except TcErr (List String) :=
  if o.compilerId.isNone then .error (.unableToDeduce "flags for C++-Version")
  else .ok (cxxVersionFlagTable kind v)

/-- `get_compiler` (`from_dds.cpp` lines 228-249): an explicit
`C-Compiler`/`C++-Compiler` wins; otherwise the executable is deduced from
the compiler kind, and without a `Compiler-ID` this is an error. -/
def getCompiler (o : ToolchainOpts) (kind : CompilerKind) (lang : Lang) :
    Except TcErr String :=
  match lang, o.cxxCompiler, o.cCompiler with
  | .cxx, some cxx, _ => .ok cxx
  | .c, _, some c => .ok c
  | _, _, _ =>
    if o.compilerId.isNone then .error .noCompilerToUse
    else match kind with
      | .gnu => .ok (if lang = .cxx then "g++" else "gcc")
      | .clang => .ok (if lang = .cxx then "clang++" else "clang")
      | .msvc => .ok "cl.exe"
      | .noCompId => .error .assertFailed

/-- `get_link_flags` (`from_dds.cpp` lines 363-387). -/
def getLinkFlags (o : ToolchainOpts) (kind : CompilerKind) : List String :=
  let base :=
    if kind = .msvc then
      (if o.doOptimize.getD false then ["/O2"] else []) ++
      (if o.doDebug.getD false then ["/Z7", "/DEBUG"] else []) ++
      [if o.doDebug.getD false then "/MTd" else "/MT"]
    else if kind = .gnu ∨ kind = .clang then
      (if o.doOptimize.getD false then ["-O2"] else []) ++
      (if o.doDebug.getD false then ["-g"] else [])
    else []
  base ++ o.linkFlags.getD []

/-- `get_flags` (`from_dds.cpp` lines 389-437): language flags, language
standard flags, optimization/debug flags, the compile-template skeleton
for the compiler family, then the accumulated `Flags`. -/
def getFlags (o : ToolchainOpts) (kind : CompilerKind) (cv : CVer)
    (cxxv : CxxVer) (lang : Lang) : Except TcErr (List String) := do
  let f1 := if lang = .cxx then o.cxxFlags.getD [] else []
  let f2 ← if lang = .cxx ∧ o.cxxVersion.isSome then
      getCxxVersionFlags o kind cxxv
    else pure []
  let f3 := if lang = .c then o.cFlags.getD [] else []
  let f4 ← if lang = .c ∧ o.cVersion.isSome then
      getCVersionFlags o kind cv
    else pure []
  let fFam :=
    if kind = .msvc then
      (if o.doOptimize.getD false then ["/O2"] else []) ++
      (if o.doDebug.getD false then ["/Z7", "/DEBUG"] else []) ++
      [if o.doDebug.getD false then "/MTd" else "/MT"] ++
      (if lang = .cxx then ["/EHsc"] else []) ++
      ["/nologo", "/permissive-", "<FLAGS>", "/c", "<IN>", "/Fo<OUT>"]
    else if kind = .gnu ∨ kind = .clang then
      (if o.doOptimize.getD false then ["-O2"] else []) ++
      (if o.doDebug.getD false then ["-g"] else []) ++
      ["-fPIC", "-fdiagnostics-color", "-pthread", "<FLAGS>", "-c", "<IN>", "-o<OUT>"]
    else []
  pure (f1 ++ f2 ++ f3 ++ f4 ++ fFam ++ o.flags.getD [])

/-- The realized toolchain (`toolchain::realize`, `toolchain.cpp` lines
21-39; the prefix/suffix fields keep the source's meaning under shortened
names). -/
structure Toolchain where
  cCompile : List String
  cxxCompile : List String
  incTemplate : List String
  externIncTemplate : List String
  defTemplate : List String
  linkArchive : List String
  linkExe : List String
  warningFlags : List String
  archivePfx : String
  archiveSfx : String
  objectPfx : String
  objectSfx : String
  exePfx : String
  exeSfx : String
  depsMode : DepsModeT
  deriving Repr, DecidableEq

/-- The default executable suffix: `.exe` on Windows targets and empty
elsewhere (`from_dds.cpp` lines 531-537); this embedding models a
non-Windows build. -/
def platformExeSuffix : String := ""

/-- The deduction half of `parse_toolchain_dds` (`from_dds.cpp` lines
180-597), sequenced exactly as in the source: classify `Compiler-ID`,
compute the deps mode and language versions, then fill every toolchain
attribute from its override or its deduction lambda. -/
def realizeOpts (o : ToolchainOpts) : Except TcErr Toolchain := do
  let kind ← compilerKindOf o.compilerId
  let depsMode ← depsModeOf o.depsModeStr kind
  let cv ← cVerOf o.cVersion
  let cxxv ← cxxVerOf o.cxxVersion
  let cCompile ← match o.cCompileFile with
    | some cmd => pure cmd
    | none => do
      let comp ← getCompiler o kind .c
      let fl ← getFlags o kind cv cxxv .c
      pure (o.compileLauncher.getD [] ++ [comp] ++ fl)
  let cxxCompile ← match o.cxxCompileFile with
    | some cmd => pure cmd
    | none => do
      let comp ← getCompiler o kind .cxx
      let fl ← getFlags o kind cv cxxv .cxx
      pure (o.compileLauncher.getD [] ++ [comp] ++ fl)
  let incT ← match o.includeTemplate with
    | some t => pure t
    | none =>
      match kind with
      | .noCompId => .error (.cannotDeduce "Include-Template")
      | .gnu | .clang => pure ["-I", "<PATH>"]
      | .msvc => pure ["/I", "<PATH>"]
  let extIncT : List String :=
    match o.externalIncludeTemplate with
    | some t => t
    | none =>
      match kind with
      | .noCompId => incT
      | .gnu | .clang => ["-isystem", "<PATH>"]
      | .msvc => ["/I", "<PATH>"]
  let defT ← match o.defineTemplate with
    | some t => pure t
    | none =>
      match kind with
      | .noCompId => .error (.cannotDeduce "Define-Template")
      | .gnu | .clang => pure ["-D", "<DEF>"]
      | .msvc => pure ["/D", "<DEF>"]
  let archivePfx := o.archivePfxOpt.getD "lib"
  let archiveSfx ← match o.archiveSfxOpt with
    | some s => pure s
    | none =>
      match kind with
      | .noCompId => .error (.cannotDeduce "library file extension")
      | .gnu | .clang => pure ".a"
      | .msvc => pure ".lib"
  let objectPfx := o.objectPfxOpt.getD ""
  let objectSfx ← match o.objectSfxOpt with
    | some s => pure s
    | none =>
      match kind with
      | .noCompId => .error (.cannotDeduce "object file extension")
      | .gnu | .clang => pure ".o"
      | .msvc => pure ".obj"
  let exePfx := o.exePfxOpt.getD ""
  let exeSfx := o.exeSfxOpt.getD platformExeSuffix
  let warningFlags : List String :=
    match o.warningFlags with
    | some w => w
    | none =>
      match kind with
      | .noCompId => []
      | .msvc => ["/W4"]
      | .gnu | .clang => ["-Wall", "-Wextra", "-Wpedantic", "-Wconversion"]
  let linkArchive ← match o.createArchive with
    | some c => pure c
    | none =>
      match kind with
      | .noCompId => .error (.unableToDeduce "archive creation rules")
      | .msvc => pure ["lib", "/nologo", "/OUT:<OUT>", "<IN>"]
      | .gnu | .clang => pure ["ar", "rcs", "<OUT>", "<IN>"]
  let linkExe ← match o.linkExecutable with
    | some c => pure c
    | none => do
      match kind with
      | .noCompId => .error (.unableToDeduce "how to link executables")
      | _ => do
        let comp ← getCompiler o kind .cxx
        let base :=
          match kind with
          | .msvc => [comp, "/nologo", "/EHsc", "<IN>", "/Fe<OUT>"]
          | .gnu => [comp, "-fPIC", "-fdiagnostics-color", "<IN>", "-pthread",
                     "-lstdc++fs", "-o<OUT>"]
          | .clang => [comp, "-fPIC", "-fdiagnostics-color", "<IN>", "-pthread",
                       "-o<OUT>"]
          | .noCompId => []
        pure (base ++ getLinkFlags o kind)
  pure { cCompile, cxxCompile, incTemplate := incT, externIncTemplate := extIncT,
         defTemplate := defT, linkArchive, linkExe, warningFlags,
         archivePfx, archiveSfx, objectPfx, objectSfx, exePfx, exeSfx, depsMode }

/-- `parse_toolchain_dds(pairs, context)`: read the document, then realize
the toolchain. -/
def parseToolchain (pairs : List (String × String)) : Except TcErr Toolchain := do
  realizeOpts (← parseOpts pairs)

/-- `create_archive_plan::archive_file_path` (`plan.cpp` lines 126-129):
the filename is formatted from the literal `"lib"`, the library name and
the toolchain's archive suffix — the configured archive prefix is not
consulted. -/
def archiveFilePath (p : CreateArchivePlan) (tc : Toolchain) : String :=
  "lib" ++ p.name ++ tc.archiveSfx

/-! ## Parallel worker runner (`plan.cpp` lines 73-122)

`parallel_run` spawns workers that loop: lock the mutex; if the collected
exception list is non-empty, stop; if the cursor is exhausted, stop; else
take the next item, unlock, and run it outside the lock; an exception from
the item is pushed onto the list under the lock and the worker stops.  The
mutex makes each lock-protected section atomic, so the runner is a
transition system whose atomic steps are: the three head-of-loop outcomes
(stop on a recorded exception, stop on cursor end, take an item) and the
two ways an item finishes (normally, back to the loop head; or recording
the exception and stopping).  The state tracks the shared cursor, the item
count, the number of recorded exceptions, and each worker's phase. -/

/-- The phase of one worker: at the head of the loop, running a taken item,
or stopped. -/
inductive WPhase where
  | atHead
  | running (item : Nat)
  | stopped
  deriving Repr, DecidableEq

/-- The shared state of `parallel_run`: the cursor position, the total item
count (`stop`), the size of the collected exception list, and the worker
phases. -/
structure RunSt where
  next : Nat
  total : Nat
  excs : Nat
  ws : List WPhase
  deriving Repr, DecidableEq

/-- Labels for the atomic steps of worker `w`. -/
inductive WLabel where
  | takeItem (w : Nat)
  | stopOnExc (w : Nat)
  | stopOnEnd (w : Nat)
  | finishOk (w : Nat)
  | finishErr (w : Nat)
  deriving Repr, DecidableEq

/-- `true` exactly for an item-taking step. -/
def isTakeL : WLabel → Bool
  | .takeItem _ => true
  | _ => false

/-- One atomic step of the runner; `none` when the step is not enabled.
`takeItem` mirrors the locked section at `plan.cpp` lines 85-93: it
requires the exception list empty AND the cursor short of the end;
`stopOnExc`/`stopOnEnd` are the two `break`s in that section;
`finishOk`/`finishErr` mirror `fn(item)` returning or throwing, the latter
pushing onto the exception list under the lock (lines 94-100).  Finishing
an item is enabled regardless of recorded exceptions. -/
def wstep (s : RunSt) : WLabel → Option RunSt
  | .takeItem w =>
    match s.ws.get? w with
    | some .atHead =>
      if s.excs = 0 ∧ s.next < s.total then
        some { s with next := s.next + 1, ws := s.ws.set w (.running s.next) }
      else none
    | _ => none
  | .stopOnExc w =>
    match s.ws.get? w with
    | some .atHead =>
      if s.excs ≠ 0 then some { s with ws := s.ws.set w .stopped } else none
    | _ => none
  | .stopOnEnd w =>
    match s.ws.get? w with
    | some .atHead =>
      if s.excs = 0 ∧ s.next = s.total then
        some { s with ws := s.ws.set w .stopped }
      else none
    | _ => none
  | .finishOk w =>
    match s.ws.get? w with
    | some (.running _) => some { s with ws := s.ws.set w .atHead }
    | _ => none
  | .finishErr w =>
    match s.ws.get? w with
    | some (.running _) =>
      some { s with excs := s.excs + 1, ws := s.ws.set w .stopped }
    | _ => none

/-- Run a sequence of labelled steps. -/
def wrun (s : RunSt) : List WLabel → Option RunSt
  | [] => some s
  | l :: rest =>
    match wstep s l with
    | none => none
    | some s2 => wrun s2 rest

/-- The initial state: cursor at 0, no exceptions, every worker at the loop
head. -/
def initSt (workers total : Nat) : RunSt :=
  ⟨0, total, 0, List.replicate workers .atHead⟩

/-! ## Builtin toolchain ids (`toolchain.cpp` lines 147-237)

`toolchain::get_builtin(tc_id)` strips the optional `debug:`, `ccache:`
and `c++XX:` tags off the front of the id (each by a `starts_with` check
followed by `substr`), accumulating toolchain-file content, then recognizes
the compiler root (`gcc`/`clang` with an optional `-7`..`-13` suffix
checked by `ends_with`, or exactly `msvc`), and finally parses the
accumulated content with `parse_toolchain_dds`.  The id is modelled as a
character list; the accumulated content, which the external `lm` reader
would split back into lines, is modelled directly as the key/value pair
list those lines denote. -/

/-- `starts_with(tc_id, tag)` + `tc_id = tc_id.substr(tag.length())`:
whether the tag was stripped, and the rest. -/
def dropTag (tag s : List Char) : Bool × List Char :=
  if tag.isPrefixOf s then (true, s.drop tag.length) else (false, s)

/-- The six `CXX_VER_TAG` tag/value pairs, in the order the source checks
them (`toolchain.cpp` lines 169-174). -/
def stdTags : List (List Char × String) :=
  [("c++98:".toList, "C++98"), ("c++03:".toList, "C++03"),
   ("c++11:".toList, "C++11"), ("c++14:".toList, "C++14"),
   ("c++17:".toList, "C++17"), ("c++20:".toList, "C++20")]

/-- Apply the `CXX_VER_TAG` checks in sequence: each tag that prefixes the
remaining id is stripped and contributes one `C++-Version` line. -/
def stripStdTags : List (List Char × String) → List Char →
    List (String × String) × List Char
  | [], s => ([], s)
  | (tag, v) :: rest, s =>
    if tag.isPrefixOf s then
      let (ps, s2) := stripStdTags rest (s.drop tag.length)
      (("C++-Version", v) :: ps, s2)
    else stripStdTags rest s

/-- `compiler_suffix` (`toolchain.cpp` lines 197-214): the first of
`-7`..`-13` that the id ends with, else empty. -/
def verSuffixOf (r : List Char) : List Char :=
  if ("-7".toList).isSuffixOf r then "-7".toList
  else if ("-8".toList).isSuffixOf r then "-8".toList
  else if ("-9".toList).isSuffixOf r then "-9".toList
  else if ("-10".toList).isSuffixOf r then "-10".toList
  else if ("-11".toList).isSuffixOf r then "-11".toList
  else if ("-12".toList).isSuffixOf r then "-12".toList
  else if ("-13".toList).isSuffixOf r then "-13".toList
  else []

/-- The `opt_triple` lambda (`toolchain.cpp` lines 182-227): recognize the
compiler root left after tag stripping, producing the C compiler name, the
C++ compiler name and the `Compiler-ID` value.  A `gcc`/`clang` root must
equal base-plus-suffix exactly; `msvc` is recognized only bare. -/
def rootTriple (r : List Char) : Option (List Char × List Char × String) :=
  if ("gcc".toList).isPrefixOf r ∨ ("clang".toList).isPrefixOf r then
    let isGcc := ("gcc".toList).isPrefixOf r
    let cBase := if isGcc then "gcc".toList else "clang".toList
    let cxxBase := if isGcc then "g++".toList else "clang++".toList
    let cid := if isGcc then "GNU" else "Clang"
    let sfx := verSuffixOf r
    let cName := cBase ++ sfx
    if cName = r then some (cName, cxxBase ++ sfx, cid) else none
  else if r = "msvc".toList then
    some ("cl.exe".toList, "cl.exe".toList, "MSVC")
  else none

/-- The tag-stripping phase of `get_builtin`: the `debug:` flag, the
`ccache:` flag, the accumulated `C++-Version` lines, and the remaining
root. -/
def builtinShape (tcId : List Char) :
    Bool × Bool × List (String × String) × List Char :=
  let (dbg, s1) := dropTag "debug:".toList tcId
  let (cc, s2) := dropTag "ccache:".toList s1
  let (ps, s3) := stripStdTags stdTags s2
  (dbg, cc, ps, s3)

/-- The toolchain-file content accumulated by `get_builtin`, as the
key/value pairs its lines denote, in the order the lines are appended. -/
def builtinPairs (dbg cc : Bool) (ps : List (String × String))
    (cN cxxN : List Char) (cid : String) : List (String × String) :=
  (if dbg then [("Debug", "True")] else []) ++
  (if cc then [("Compiler-Launcher", "ccache")] else []) ++ ps ++
  [("C-Compiler", String.mk cN), ("C++-Compiler", String.mk cxxN),
   ("Compiler-ID", cid)]

/-- `toolchain::get_builtin(tc_id)`: `none` models the `std::nullopt`
returns (unrecognized root); otherwise the result of
`parse_toolchain_dds` on the accumulated content. -/
def getBuiltin (tcId : List Char) : Option (Except TcErr Toolchain) :=
  match builtinShape tcId with
  | (dbg, cc, ps, s3) =>
    match rootTriple s3 with
    | none => none
    | some (cN, cxxN, cid) =>
      some (parseToolchain (builtinPairs dbg cc ps cN cxxN cid))

/-- Whether `get_builtin` hands back a toolchain for the id. -/
def returnsToolchain (tcId : List Char) : Bool :=
  match getBuiltin tcId with
  | some (.ok _) => true
  | _ => false

/-- The recognized compiler roots: versioned `gcc`/`clang`, bare `msvc`. -/
def gRoots : List (List Char) :=
  ["gcc", "gcc-7", "gcc-8", "gcc-9", "gcc-10", "gcc-11", "gcc-12", "gcc-13",
   "clang", "clang-7", "clang-8", "clang-9", "clang-10", "clang-11",
   "clang-12", "clang-13", "msvc"].map String.toList

/-- The optional `debug:` tag alternatives of the id grammar. -/
def gTagD : List (List Char) := [[], "debug:".toList]

/-- The optional `ccache:` tag alternatives of the id grammar. -/
def gTagC : List (List Char) := [[], "ccache:".toList]

/-- The optional language-standard tag alternatives of the id grammar. -/
def gTagV : List (List Char) :=
  [[], "c++98:".toList, "c++03:".toList, "c++11:".toList, "c++14:".toList,
   "c++17:".toList, "c++20:".toList]

/-- The (finite) language of the builtin-id grammar
`(debug:)?(ccache:)?(c++(98|03|11|14|17|20):)?((gcc|clang)(-(7|8|9|10|11|12|13))?|msvc)`:
every choice of the optional tags followed by a recognized root. -/
def grammarStrings : List (List Char) :=
  gTagD.flatMap (fun d =>
    gTagC.flatMap (fun c =>
      gTagV.flatMap (fun v =>
        gRoots.map (fun r => d ++ c ++ v ++ r))))

end Dds

namespace Dds

/-- C1 helper: on the self-`uses` cycle, `include_paths` exhausts any
amount of fuel: the recursion of `usage_reqs.cpp` never returns. -/
theorem includePathsF_selfUse_none (fuel : Nat) :
    includePathsF fuel selfUseMap ("a", "a") = none := by
  induction fuel with
  | zero => simp [includePathsF]
  | succ n ih =>
    simp only [selfUseMap] at ih
    simp [includePathsF, includePathsF.loop, selfUseMap, umGet, ih]

/-- C1 helper: on the self-`links` cycle, `link_paths` exhausts any amount
of fuel. -/
theorem linkPathsF_selfLink_none (fuel : Nat) :
    linkPathsF fuel selfLinkMap ("a", "a") = none := by
  induction fuel with
  | zero => simp [linkPathsF]
  | succ n ih =>
    simp only [selfLinkMap] at ih
    simp [linkPathsF, linkPathsF.loop, selfLinkMap, umGet, ih]

/-- C1: the claim states that `include_paths` and `link_paths` terminate on
cyclic `uses`/`links` graphs because of first-seen duplicate suppression.
The source collects transitively by plain recursion with no visited set
(`usage_reqs.cpp` lines 42-60 and 62-76): on the one-node self-cycle both
functions fail to produce a result under every fuel bound, i.e. the C++
recursion diverges, contradicting the claimed termination. -/
theorem usage_paths_diverge_on_cycle :
    (∀ fuel, includePathsF fuel selfUseMap ("a", "a") = none) ∧
    (∀ fuel, linkPathsF fuel selfLinkMap ("a", "a") = none) :=
  ⟨includePathsF_selfUse_none, linkPathsF_selfLink_none⟩

/-- C4: for a writeable repository whose destination directory for `sd`
already exists, `add_sdist(sd, throw)` raises `sdist_exists` changing
neither disk nor memory; `add_sdist(sd, ignore)` warns and changes nothing;
`add_sdist(sd, replace)` succeeds, rebinds the destination to the new tree,
clears the staging directory, and inserts the reloaded sdist into the
in-memory set — which is thus updated only on success. -/
theorem add_sdist_policy_semantics (r : Repository) (sd : Sdist)
    (hw : r.writeEnabled = true)
    (hex : (lookupFs r.fsEntries (pidStr sd.manifest.pkgId)).isSome = true) :
    addSdist r sd .throwExc = ⟨some .sdistExists, r, [], []⟩ ∧
    addSdist r sd .ignore = ⟨none, r, [], [.warnExists]⟩ ∧
    (addSdist r sd .replace).err = none ∧
    (addSdist r sd .replace).repo.fsEntries
      = setFs r.fsEntries (pidStr sd.manifest.pkgId) sd.manifest ∧
    (addSdist r sd .replace).repo.sdists
      = insertSdist r.sdists ⟨sd.manifest, r.root ++ [pidStr sd.manifest.pkgId]⟩ ∧
    (addSdist r sd .replace).repo.tmpDir = none := by
  simp only [addSdist, addSdistGen, hw, hex, fromDirectory, if_pos rfl]
  simp

/-- C4 witness: a concrete writeable one-entry repository exercising all
three policies. -/
theorem add_sdist_policy_semantics_witness :
    let v : Version := ⟨1, 2, 3, none⟩
    let m : Manifest := ⟨⟨"foo", v⟩, []⟩
    let r : Repository :=
      ⟨true, ["repo"], [("foo@1.2.3", ⟨⟨"foo", v⟩, [⟨"bar", "^1.0.0"⟩]⟩)], none,
        [⟨⟨⟨"foo", v⟩, [⟨"bar", "^1.0.0"⟩]⟩, ["repo", "foo@1.2.3"]⟩]⟩
    let sd : Sdist := ⟨m, ["elsewhere", "foo"]⟩
    addSdist r sd .throwExc = ⟨some .sdistExists, r, [], []⟩ ∧
    addSdist r sd .ignore = ⟨none, r, [], [.warnExists]⟩ ∧
    (addSdist r sd .replace).err = none ∧
    (addSdist r sd .replace).repo.fsEntries
      = setFs r.fsEntries (pidStr sd.manifest.pkgId) sd.manifest ∧
    (addSdist r sd .replace).repo.sdists
      = insertSdist r.sdists ⟨sd.manifest, r.root ++ [pidStr sd.manifest.pkgId]⟩ ∧
    (addSdist r sd .replace).repo.tmpDir = none :=
  add_sdist_policy_semantics _ _ (by decide) (by decide)

/-- C10: replacing an existing destination removes it only after the
recursive copy into `.tmp-import` has completed: in the successful replace
trace the copy operation precedes the destination removal, and when the
copy fails the import aborts with the previous destination tree and the
in-memory set untouched — only the staging directory is left partial. -/
theorem add_sdist_replace_copy_before_remove (r : Repository) (sd : Sdist)
    (hw : r.writeEnabled = true)
    (hex : (lookupFs r.fsEntries (pidStr sd.manifest.pkgId)).isSome = true) :
    ((addSdistGen true r sd .replace).ops.indexOf FsOp.copyOp
      < (addSdistGen true r sd .replace).ops.indexOf FsOp.removeDestOp) ∧
    (addSdistGen false r sd .replace).err = some .copyFailed ∧
    (addSdistGen false r sd .replace).repo.fsEntries = r.fsEntries ∧
    (addSdistGen false r sd .replace).repo.sdists = r.sdists ∧
    (addSdistGen false r sd .replace).repo.tmpDir = some .broken ∧
    FsOp.removeDestOp ∉ (addSdistGen false r sd .replace).ops := by
  simp only [addSdistGen, hw, hex, fromDirectory, if_pos rfl]
  rcases htmp : r.tmpDir with _ | t <;> simp [htmp]

/-- C10 witness: the same concrete repository as the C4 witness. -/
theorem add_sdist_replace_copy_before_remove_witness :
    let v : Version := ⟨1, 2, 3, none⟩
    let m : Manifest := ⟨⟨"foo", v⟩, []⟩
    let r : Repository :=
      ⟨true, ["repo"], [("foo@1.2.3", m)], none, [⟨m, ["repo", "foo@1.2.3"]⟩]⟩
    let sd : Sdist := ⟨m, ["elsewhere", "foo"]⟩
    ((addSdistGen true r sd .replace).ops.indexOf FsOp.copyOp
      < (addSdistGen true r sd .replace).ops.indexOf FsOp.removeDestOp) ∧
    (addSdistGen false r sd .replace).err = some .copyFailed ∧
    (addSdistGen false r sd .replace).repo.fsEntries = r.fsEntries ∧
    (addSdistGen false r sd .replace).repo.sdists = r.sdists ∧
    (addSdistGen false r sd .replace).repo.tmpDir = some .broken ∧
    FsOp.removeDestOp ∉ (addSdistGen false r sd .replace).ops :=
  add_sdist_replace_copy_before_remove _ _ (by decide) (by decide)

/-- C5: the candidate list handed to the solver is NOT deduplicated.  With
`foo@1.0.0` both in the local repository and in the catalog, `versions_of`
returns the id twice: `ranges::unique` is called with `std::less<>{}` as
its (equality) predicate, on a sorted vector it moves nothing, and its
returned new-end iterator is discarded, so the duplicate entry survives,
contradicting the claimed one-entry-per-`package_id` merge rule. -/
theorem solve_versions_keep_duplicates :
    let foo : PackageId := ⟨"foo", ⟨1, 0, 0, none⟩⟩
    versionsOf [⟨⟨foo, []⟩, ["store", "foo@1.0.0"]⟩] [foo] "foo" = [foo, foo] ∧
    [⟨"foo", ⟨1, 0, 0, none⟩⟩, ⟨"foo", ⟨1, 0, 0, none⟩⟩]
      ≠ ([⟨"foo", ⟨1, 0, 0, none⟩⟩] : List PackageId) := by
  decide

/-- C7 counterexample: for a test source named `foo.test.cpp` the generated
executable's output basename is `foo`, not the single-extension stem
`foo.test` the claim requires. -/
theorem exe_basename_counterexample :
    let lib : Library :=
      ⟨true, ["src"], [⟨["src", "foo.test.cpp"], .test⟩], ⟨"mylib", [], []⟩, {}⟩
    let params : LibraryBuildParams := ⟨["out"], false, [], []⟩
    ((libraryPlanCreate lib params).linkExecutables.map
        (fun e => e.outputName) = ["foo"]) ∧
    stemStr (filenameOf ["src", "foo.test.cpp"]) = "foo.test" ∧
    ("foo" : String) ≠ "foo.test" := by
  decide

/-- C7 (amended): every executable generated by `library_plan::create` has
output basename `source.path.stem().stem()` — the source filename with up
to its final two extensions removed — applied to its own compile plan's
source file. -/
theorem exe_basename_eq_double_stem (lib : Library) (params : LibraryBuildParams) :
    ∀ e ∈ (libraryPlanCreate lib params).linkExecutables,
      e.outputName = stemStr (stemStr (filenameOf e.compile.source.path)) := by
  intro e he
  simp only [libraryPlanCreate, List.mem_map] at he
  obtain ⟨src, _, rfl⟩ := he
  rfl

/-- C7 witness: the amended statement applied to the one executable plan of
a concrete library with a single test source `foo.test.cpp`. -/
theorem exe_basename_eq_double_stem_witness :
    let lib : Library :=
      ⟨true, ["src"], [⟨["src", "foo.test.cpp"], .test⟩], ⟨"mylib", [], []⟩, {}⟩
    let params : LibraryBuildParams := ⟨["out"], false, [], []⟩
    let e := ((libraryPlanCreate lib params).linkExecutables).head!
    e.outputName = stemStr (stemStr (filenameOf e.compile.source.path)) :=
  exe_basename_eq_double_stem
    ⟨true, ["src"], [⟨["src", "foo.test.cpp"], .test⟩], ⟨"mylib", [], []⟩, {}⟩
    ⟨["out"], false, [], []⟩ _ (by decide)

/-- C6: a toolchain parsed with `Archive-Prefix: xyz` carries `xyz` in its
archive-prefix attribute, yet `create_archive_plan::archive_file_path`
names the archive `libfoo.a`: the filename is formatted from the literal
`"lib"` (`plan.cpp` line 127) and the configured prefix is ignored,
contradicting the claimed `archive_prefix + name + archive_suffix`. -/
theorem archive_prefix_ignored_by_filename :
    (parseToolchain [("Compiler-ID", "GNU"), ("Archive-Prefix", "xyz")]).map
      (fun tc => (tc.archivePfx, archiveFilePath ⟨"foo", ["out"], []⟩ tc))
      = .ok ("xyz", "libfoo.a") ∧
    ("libfoo.a" : String) ≠ "xyzfoo.a" := by
  decide

/-- C3 counterexample: a document giving `Include-Template` and
`External-Include-Template` once each is rejected with a
more-than-one-value error for `External-Include-Template`, because both
handlers write the same `include_template` slot (`from_dds.cpp` lines
122-123); the claim says the two keys may be specified together. -/
theorem both_include_templates_duplicate_error :
    parseOpts [("Include-Template", "-I <PATH>"),
               ("External-Include-Template", "-isystem <PATH>")]
      = .error (.dupArgvKey "External-Include-Template") := by
  decide

/-- Helper: reading one pair never fills the `externalIncludeTemplate`
slot — the `External-Include-Template` handler stores into
`includeTemplate` instead. -/
theorem applyPair_keeps_extInc (o o' : ToolchainOpts) (kv : String × String)
    (h : applyPair o kv = .ok o') :
    o'.externalIncludeTemplate = o.externalIncludeTemplate := by
  unfold applyPair at h
  rcases htag : keyTagOf kv.1 with _ | t
  · rw [htag] at h
    exact absurd h (by simp)
  · rw [htag] at h
    cases t <;>
      simp only [bind, Except.bind, pure, Except.pure] at h <;>
      (try split at h) <;>
      first
        | exact Except.noConfusion h
        | (rw [← h])
        | (injection h with h2; rw [← h2])

/-- Helper: along a whole read, the `externalIncludeTemplate` slot keeps
its initial value. -/
theorem readPairs_keeps_extInc (pairs : List (String × String)) :
    ∀ o o', readPairs o pairs = .ok o' →
      o'.externalIncludeTemplate = o.externalIncludeTemplate := by
  induction pairs with
  | nil => intro o o' h; cases h; rfl
  | cons kv rest ih =>
    intro o o' h
    unfold readPairs at h
    rcases ha : applyPair o kv with e | o2
    · rw [ha] at h; cases h
    · rw [ha] at h
      rw [ih o2 o' h, applyPair_keeps_extInc o o2 kv ha]

/-- C3 (amended): `Include-Template` and `External-Include-Template` are
not independent keys: both write the include-template slot (so giving both
is a duplicate-value error, proved separately), reading can never fill the
external-include slot, and a document specifying only
`External-Include-Template` ends up with its value as the *include*
template. -/
theorem external_include_template_shares_slot :
    (∀ pairs o, parseOpts pairs = .ok o → o.externalIncludeTemplate = none) ∧
    (∀ v, parseOpts [("External-Include-Template", v)]
      = .ok { includeTemplate := some (splitShell v) }) := by
  constructor
  · intro pairs o h
    exact readPairs_keeps_extInc pairs {} o h
  · intro v
    rfl

/-- C2 counterexample: a document with no `Compiler-ID` that overrides the
compile commands, templates, suffixes and link commands but omits
`Warning-Flags` parses successfully — the warning flags silently default
to the empty vector (`from_dds.cpp` lines 539-543) and the external
include template silently falls back to the include template (lines
474-478), where the claim demands a "Cannot deduce ... without
Compiler-ID" error. -/
theorem warning_flags_silent_default_counterexample :
    (parseToolchain
        [("C-Compile-File", "mycc -c <IN> -o<OUT>"),
         ("C++-Compile-File", "mycxx -c <IN> -o<OUT>"),
         ("Include-Template", "-I <PATH>"),
         ("Define-Template", "-D <DEF>"),
         ("Archive-Suffix", ".a"),
         ("Object-Suffix", ".o"),
         ("Create-Archive", "ar rcs <OUT> <IN>"),
         ("Link-Executable", "mycxx <IN> -o<OUT>")]).map
      (fun tc => (tc.warningFlags, tc.incTemplate, tc.externIncTemplate))
      = .ok ([], ["-I", "<PATH>"], ["-I", "<PATH>"]) := by
  decide

/-- C2 (amended): with `Compiler-ID` absent (and the compile commands
overridden so that realization reaches the deductions), each of the include
template, define template, archive suffix, object suffix, archive command
and link-executable command errors when it has no explicit override — in
the source's deduction order — while `Warning-Flags` is exempt (it
silently defaults to no flags) and `External-Include-Template` is exempt
(it falls back to the include template). -/
theorem deduction_requires_compiler_id (o : ToolchainOpts)
    (hid : o.compilerId = none)
    (hdm : o.depsModeStr = none)
    (hcv : o.cVersion = none)
    (hcxxv : o.cxxVersion = none)
    (hcc : o.cCompileFile.isSome)
    (hcxx : o.cxxCompileFile.isSome) :
    (o.includeTemplate = none →
      realizeOpts o = .error (.cannotDeduce "Include-Template")) ∧
    (o.includeTemplate.isSome → o.defineTemplate = none →
      realizeOpts o = .error (.cannotDeduce "Define-Template")) ∧
    (o.includeTemplate.isSome → o.defineTemplate.isSome →
      o.archiveSfxOpt = none →
      realizeOpts o = .error (.cannotDeduce "library file extension")) ∧
    (o.includeTemplate.isSome → o.defineTemplate.isSome →
      o.archiveSfxOpt.isSome → o.objectSfxOpt = none →
      realizeOpts o = .error (.cannotDeduce "object file extension")) ∧
    (o.includeTemplate.isSome → o.defineTemplate.isSome →
      o.archiveSfxOpt.isSome → o.objectSfxOpt.isSome → o.createArchive = none →
      realizeOpts o = .error (.unableToDeduce "archive creation rules")) ∧
    (o.includeTemplate.isSome → o.defineTemplate.isSome →
      o.archiveSfxOpt.isSome → o.objectSfxOpt.isSome → o.createArchive.isSome →
      o.linkExecutable = none →
      realizeOpts o = .error (.unableToDeduce "how to link executables")) ∧
    (o.includeTemplate.isSome → o.defineTemplate.isSome →
      o.archiveSfxOpt.isSome → o.objectSfxOpt.isSome → o.createArchive.isSome →
      o.linkExecutable.isSome →
      ∃ tc, realizeOpts o = .ok tc ∧ tc.warningFlags = o.warningFlags.getD [] ∧
        (o.externalIncludeTemplate = none →
          tc.externIncTemplate = tc.incTemplate)) := by
  obtain ⟨cc, hcc'⟩ := Option.isSome_iff_exists.mp hcc
  obtain ⟨cxx, hcxx'⟩ := Option.isSome_iff_exists.mp hcxx
  refine ⟨?_, ?_, ?_, ?_, ?_, ?_, ?_⟩
  · intro hinc
    simp [realizeOpts, hid, hdm, hcv, hcxxv, hcc', hcxx', hinc,
      compilerKindOf, depsModeOf, cVerOf, cxxVerOf, bind, Except.bind,
      pure, Except.pure]
  · intro hinc hdef
    obtain ⟨it, hit⟩ := Option.isSome_iff_exists.mp hinc
    simp [realizeOpts, hid, hdm, hcv, hcxxv, hcc', hcxx', hit, hdef,
      compilerKindOf, depsModeOf, cVerOf, cxxVerOf, bind, Except.bind,
      pure, Except.pure]
  · intro hinc hdef har
    obtain ⟨it, hit⟩ := Option.isSome_iff_exists.mp hinc
    obtain ⟨dt, hdt⟩ := Option.isSome_iff_exists.mp hdef
    simp [realizeOpts, hid, hdm, hcv, hcxxv, hcc', hcxx', hit, hdt, har,
      compilerKindOf, depsModeOf, cVerOf, cxxVerOf, bind, Except.bind,
      pure, Except.pure]
  · intro hinc hdef har hobj
    obtain ⟨it, hit⟩ := Option.isSome_iff_exists.mp hinc
    obtain ⟨dt, hdt⟩ := Option.isSome_iff_exists.mp hdef
    obtain ⟨ar, har'⟩ := Option.isSome_iff_exists.mp har
    simp [realizeOpts, hid, hdm, hcv, hcxxv, hcc', hcxx', hit, hdt, har',
      hobj, compilerKindOf, depsModeOf, cVerOf, cxxVerOf, bind, Except.bind,
      pure, Except.pure]
  · intro hinc hdef har hobj hca
    obtain ⟨it, hit⟩ := Option.isSome_iff_exists.mp hinc
    obtain ⟨dt, hdt⟩ := Option.isSome_iff_exists.mp hdef
    obtain ⟨ar, har'⟩ := Option.isSome_iff_exists.mp har
    obtain ⟨ob, hob⟩ := Option.isSome_iff_exists.mp hobj
    simp [realizeOpts, hid, hdm, hcv, hcxxv, hcc', hcxx', hit, hdt, har',
      hob, hca, compilerKindOf, depsModeOf, cVerOf, cxxVerOf, bind,
      Except.bind, pure, Except.pure]
  · intro hinc hdef har hobj hca hle
    obtain ⟨it, hit⟩ := Option.isSome_iff_exists.mp hinc
    obtain ⟨dt, hdt⟩ := Option.isSome_iff_exists.mp hdef
    obtain ⟨ar, har'⟩ := Option.isSome_iff_exists.mp har
    obtain ⟨ob, hob⟩ := Option.isSome_iff_exists.mp hobj
    obtain ⟨ca, hca'⟩ := Option.isSome_iff_exists.mp hca
    simp [realizeOpts, hid, hdm, hcv, hcxxv, hcc', hcxx', hit, hdt, har',
      hob, hca', hle, compilerKindOf, depsModeOf, cVerOf, cxxVerOf, bind,
      Except.bind, pure, Except.pure]
  · intro hinc hdef har hobj hca hle
    obtain ⟨it, hit⟩ := Option.isSome_iff_exists.mp hinc
    obtain ⟨dt, hdt⟩ := Option.isSome_iff_exists.mp hdef
    obtain ⟨ar, har'⟩ := Option.isSome_iff_exists.mp har
    obtain ⟨ob, hob⟩ := Option.isSome_iff_exists.mp hobj
    obtain ⟨ca, hca'⟩ := Option.isSome_iff_exists.mp hca
    obtain ⟨le, hle'⟩ := Option.isSome_iff_exists.mp hle
    rcases hw : o.warningFlags with _ | w
    · rcases hext : o.externalIncludeTemplate with _ | et
      · refine ⟨⟨cc, cxx, it, it, dt, ca, le, [], o.archivePfxOpt.getD "lib",
          ar, o.objectPfxOpt.getD "", ob, o.exePfxOpt.getD "",
          o.exeSfxOpt.getD platformExeSuffix, .noDeps⟩, ?_, ?_, ?_⟩
        · simp [realizeOpts, hid, hdm, hcv, hcxxv, hcc', hcxx', hit, hdt,
            har', hob, hca', hle', hw, hext, compilerKindOf, depsModeOf,
            cVerOf, cxxVerOf, bind, Except.bind, pure, Except.pure]
        · simp [hw]
        · intro _; rfl
      · refine ⟨⟨cc, cxx, it, et, dt, ca, le, [], o.archivePfxOpt.getD "lib",
          ar, o.objectPfxOpt.getD "", ob, o.exePfxOpt.getD "",
          o.exeSfxOpt.getD platformExeSuffix, .noDeps⟩, ?_, ?_, ?_⟩
        · simp [realizeOpts, hid, hdm, hcv, hcxxv, hcc', hcxx', hit, hdt,
            har', hob, hca', hle', hw, hext, compilerKindOf, depsModeOf,
            cVerOf, cxxVerOf, bind, Except.bind, pure, Except.pure]
        · simp [hw]
        · intro h; simp [hext] at h
    · rcases hext : o.externalIncludeTemplate with _ | et
      · refine ⟨⟨cc, cxx, it, it, dt, ca, le, w, o.archivePfxOpt.getD "lib",
          ar, o.objectPfxOpt.getD "", ob, o.exePfxOpt.getD "",
          o.exeSfxOpt.getD platformExeSuffix, .noDeps⟩, ?_, ?_, ?_⟩
        · simp [realizeOpts, hid, hdm, hcv, hcxxv, hcc', hcxx', hit, hdt,
            har', hob, hca', hle', hw, hext, compilerKindOf, depsModeOf,
            cVerOf, cxxVerOf, bind, Except.bind, pure, Except.pure]
        · simp [hw]
        · intro _; rfl
      · refine ⟨⟨cc, cxx, it, et, dt, ca, le, w, o.archivePfxOpt.getD "lib",
          ar, o.objectPfxOpt.getD "", ob, o.exePfxOpt.getD "",
          o.exeSfxOpt.getD platformExeSuffix, .noDeps⟩, ?_, ?_, ?_⟩
        · simp [realizeOpts, hid, hdm, hcv, hcxxv, hcc', hcxx', hit, hdt,
            har', hob, hca', hle', hw, hext, compilerKindOf, depsModeOf,
            cVerOf, cxxVerOf, bind, Except.bind, pure, Except.pure]
        · simp [hw]
        · intro h; simp [hext] at h

/-- C2 witness: the amended statement at a concrete option record with no
`Compiler-ID`. -/
theorem deduction_requires_compiler_id_witness :
    let o : ToolchainOpts :=
      { cCompileFile := some ["mycc", "-c", "<IN>", "-o<OUT>"],
        cxxCompileFile := some ["mycxx", "-c", "<IN>", "-o<OUT>"] }
    (o.includeTemplate = none →
      realizeOpts o = .error (.cannotDeduce "Include-Template")) ∧
    (o.includeTemplate.isSome → o.defineTemplate = none →
      realizeOpts o = .error (.cannotDeduce "Define-Template")) ∧
    (o.includeTemplate.isSome → o.defineTemplate.isSome →
      o.archiveSfxOpt = none →
      realizeOpts o = .error (.cannotDeduce "library file extension")) ∧
    (o.includeTemplate.isSome → o.defineTemplate.isSome →
      o.archiveSfxOpt.isSome → o.objectSfxOpt = none →
      realizeOpts o = .error (.cannotDeduce "object file extension")) ∧
    (o.includeTemplate.isSome → o.defineTemplate.isSome →
      o.archiveSfxOpt.isSome → o.objectSfxOpt.isSome → o.createArchive = none →
      realizeOpts o = .error (.unableToDeduce "archive creation rules")) ∧
    (o.includeTemplate.isSome → o.defineTemplate.isSome →
      o.archiveSfxOpt.isSome → o.objectSfxOpt.isSome → o.createArchive.isSome →
      o.linkExecutable = none →
      realizeOpts o = .error (.unableToDeduce "how to link executables")) ∧
    (o.includeTemplate.isSome → o.defineTemplate.isSome →
      o.archiveSfxOpt.isSome → o.objectSfxOpt.isSome → o.createArchive.isSome →
      o.linkExecutable.isSome →
      ∃ tc, realizeOpts o = .ok tc ∧ tc.warningFlags = o.warningFlags.getD [] ∧
        (o.externalIncludeTemplate = none →
          tc.externIncTemplate = tc.incTemplate)) :=
  deduction_requires_compiler_id _ rfl rfl rfl rfl (by decide) (by decide)

/-- C9 helper: a single step never shrinks the exception count. -/
theorem wstep_excs_mono (s s' : RunSt) (l : WLabel) (h : wstep s l = some s') :
    s.excs ≤ s'.excs := by
  cases l <;> simp only [wstep] at h
  all_goals (try split at h)
  all_goals (try split at h)
  all_goals
    first
      | exact Option.noConfusion h
      | (injection h with h2; rw [← h2]; try exact Nat.le_succ _)

/-- C9 helper: taking an item requires the exception list to be empty. -/
theorem wstep_take_needs_no_exc (s s' : RunSt) (w : Nat)
    (h : wstep s (.takeItem w) = some s') : s.excs = 0 := by
  simp only [wstep] at h
  (try split at h) <;> (try split at h) <;>
    first
      | exact Option.noConfusion h
      | simp_all

/-- C9 helper: recording an exception grows the exception list by one. -/
theorem wstep_err_incr (s s' : RunSt) (w : Nat)
    (h : wstep s (.finishErr w) = some s') : s'.excs = s.excs + 1 := by
  simp only [wstep] at h
  (try split at h) <;>
    first
      | exact Option.noConfusion h
      | (injection h with h2; rw [← h2])

/-- C9 helper: a completed run decomposes over list append. -/
theorem wrun_append_some (a : List WLabel) :
    ∀ (s sf : RunSt) (b : List WLabel), wrun s (a ++ b) = some sf →
      ∃ sm, wrun s a = some sm ∧ wrun sm b = some sf := by
  induction a with
  | nil => intro s sf b h; exact ⟨s, rfl, h⟩
  | cons l rest ih =>
    intro s sf b h
    rw [List.cons_append] at h
    unfold wrun at h
    rcases hs : wstep s l with _ | s2
    · rw [hs] at h; cases h
    · rw [hs] at h
      obtain ⟨sm, h1, h2⟩ := ih s2 sf b h
      exact ⟨sm, by unfold wrun; rw [hs]; exact h1, h2⟩

/-- C9 helper: once at least one exception is recorded, no later step of a
completed run takes an item. -/
theorem wrun_no_take_when_exc (tr : List WLabel) :
    ∀ (s sf : RunSt), wrun s tr = some sf → 1 ≤ s.excs →
      ∀ l ∈ tr, isTakeL l = false := by
  induction tr with
  | nil => intro s sf _ _ l hl; cases hl
  | cons l rest ih =>
    intro s sf h hexc m hm
    unfold wrun at h
    rcases hs : wstep s l with _ | s2
    · rw [hs] at h; cases h
    · rw [hs] at h
      rcases List.mem_cons.mp hm with rfl | hm2
      · cases m with
        | takeItem w =>
          have := wstep_take_needs_no_exc s s2 w hs
          omega
        | stopOnExc w => rfl
        | stopOnEnd w => rfl
        | finishOk w => rfl
        | finishErr w => rfl
      · have hmono := wstep_excs_mono s s2 l hs
        exact ih s2 sf h (by omega) m hm2

/-- C9: in every completed execution of the runner, no item is taken after
an exception is recorded — the items started after the first recorded
exception number zero — while a worker that is running an item can always
finish it (normally or exceptionally), regardless of recorded exceptions. -/
theorem no_take_after_exception (s0 sf : RunSt) (pre post : List WLabel)
    (w : Nat) (h : wrun s0 (pre ++ WLabel.finishErr w :: post) = some sf) :
    post.countP (fun l => isTakeL l) = 0 ∧
    (∀ (s : RunSt) (v i : Nat), s.ws.get? v = some (.running i) →
      (wstep s (.finishOk v)).isSome ∧ (wstep s (.finishErr v)).isSome) := by
  constructor
  · obtain ⟨s1, h1, h2⟩ := wrun_append_some pre s0 sf _ h
    unfold wrun at h2
    rcases hs : wstep s1 (WLabel.finishErr w) with _ | s2
    · rw [hs] at h2; cases h2
    · rw [hs] at h2
      have hx := wstep_err_incr s1 s2 w hs
      have hall := wrun_no_take_when_exc post s2 sf h2 (by omega)
      rw [List.countP_eq_zero]
      intro l hl
      simp [hall l hl]
  · intro s v i hv
    constructor <;> · simp only [wstep]; rw [hv]; rfl

/-- C9 witness: one worker takes item 0 of 2, fails on it, and the run
completes with no further takes. -/
theorem no_take_after_exception_witness :
    ((WLabel.stopOnExc 0 :: ([] : List WLabel)).countP (fun l => isTakeL l) = 0) ∧
    (∀ (s : RunSt) (v i : Nat), s.ws.get? v = some (.running i) →
      (wstep s (.finishOk v)).isSome ∧ (wstep s (.finishErr v)).isSome) :=
  no_take_after_exception (initSt 2 2)
    ⟨1, 2, 1, [WPhase.stopped, WPhase.stopped]⟩
    [WLabel.takeItem 0] [WLabel.stopOnExc 1] 0 (by decide)

/-- C8 helper: `dropTag` splits its input into the (possibly absent) tag
and the rest. -/
theorem dropTag_decomp (tag s : List Char) (b : Bool) (s' : List Char)
    (h : dropTag tag s = (b, s')) :
    s = (if b then tag else []) ++ s' := by
  unfold dropTag at h
  by_cases hp : tag.isPrefixOf s
  · rw [if_pos hp] at h
    obtain ⟨t, ht⟩ := List.isPrefixOf_iff_prefix.mp hp
    injection h with hb hs
    subst hb hs
    rw [← ht, List.drop_left]
    simp
  · rw [if_neg hp] at h
    injection h with hb hs
    subst hb hs
    simp

/-- C8 helper: the sequential `CXX_VER_TAG` strips take a sublist of the
tags off the front of the id, each matched tag producing its
`C++-Version` line. -/
theorem stripStdTags_decomp (tags : List (List Char × String)) :
    ∀ (s : List Char) (ps : List (String × String)) (s3 : List Char),
      stripStdTags tags s = (ps, s3) →
      ∃ sub : List (List Char × String), sub.Sublist tags ∧
        ps = sub.map (fun tv => ("C++-Version", tv.2)) ∧
        s = (sub.map Prod.fst).flatten ++ s3 := by
  induction tags with
  | nil =>
    intro s ps s3 h
    unfold stripStdTags at h
    injection h with h1 h2
    exact ⟨[], List.Sublist.refl _, h1.symm, by simp [h2]⟩
  | cons tv rest ih =>
    intro s ps s3 h
    rcases tv with ⟨tag, v⟩
    unfold stripStdTags at h
    by_cases hp : tag.isPrefixOf s
    · rw [if_pos hp] at h
      obtain ⟨t, ht⟩ := List.isPrefixOf_iff_prefix.mp hp
      have hdrop : s.drop tag.length = t := by rw [← ht, List.drop_left]
      rw [hdrop] at h
      rcases h3 : stripStdTags rest t with ⟨ps2, s3'⟩
      rw [h3] at h
      injection h with h1 h2
      obtain ⟨sub, hsub, hps, hdec⟩ := ih t ps2 s3' h3
      refine ⟨(tag, v) :: sub, List.Sublist.cons₂ _ hsub, ?_, ?_⟩
      · rw [← h1, hps]; simp
      · rw [← ht, hdec, ← h2]
        simp
    · rw [if_neg hp] at h
      obtain ⟨sub, hsub, hps, hdec⟩ := ih s ps s3 h
      exact ⟨sub, List.Sublist.cons _ hsub, hps, hdec⟩

/-- C8 helper: decomposition of the tag-stripping phase — the id is the
`debug:` tag (if stripped) followed by the `ccache:` tag (if stripped)
followed by the matched standard tags followed by the root remainder. -/
theorem builtinShape_decomp (s : List Char) (dbg cc : Bool)
    (ps : List (String × String)) (s3 : List Char)
    (h : builtinShape s = (dbg, cc, ps, s3)) :
    ∃ sub : List (List Char × String), sub.Sublist stdTags ∧
      ps = sub.map (fun tv => ("C++-Version", tv.2)) ∧
      s = (if dbg then "debug:".toList else []) ++
          ((if cc then "ccache:".toList else []) ++
            ((sub.map Prod.fst).flatten ++ s3)) := by
  unfold builtinShape at h
  rcases h1 : dropTag "debug:".toList s with ⟨b1, s1⟩
  rcases h2 : dropTag "ccache:".toList s1 with ⟨b2, s2⟩
  rcases h3 : stripStdTags stdTags s2 with ⟨ps2, s3'⟩
  rw [h1] at h
  dsimp only at h
  rw [h2] at h
  dsimp only at h
  rw [h3] at h
  dsimp only at h
  injection h with hb1 h
  injection h with hb2 h
  injection h with hps hs3
  subst hb1 hb2 hps hs3
  obtain ⟨sub, hsub, hps2, hdec⟩ := stripStdTags_decomp stdTags s2 ps2 s3' h3
  refine ⟨sub, hsub, hps2, ?_⟩
  rw [dropTag_decomp _ _ _ _ h1, dropTag_decomp _ _ _ _ h2, hdec]

/-- C8 helper: content containing two `C++-Version` lines is rejected by
the reader (`C++-Version` is a single-value key), whatever else the
content holds. -/
theorem parse_two_cxx_versions (dbg cc : Bool) (v1 v2 : String)
    (rest : List (String × String)) (cN cxxN : List Char) (cid : String) :
    parseToolchain (builtinPairs dbg cc
        (("C++-Version", v1) :: ("C++-Version", v2) :: rest) cN cxxN cid)
      = .error (.dupKey "C++-Version") := by
  rcases dbg <;> rcases cc <;> rfl

/-- C8 helper: the version suffix is always one of the eight recognized
values. -/
theorem verSuffixOf_mem (r : List Char) :
    verSuffixOf r ∈ ([[], "-7".toList, "-8".toList, "-9".toList,
      "-10".toList, "-11".toList, "-12".toList, "-13".toList] :
        List (List Char)) := by
  unfold verSuffixOf
  split_ifs <;> simp

/-- C8 helper: a root the `opt_triple` lambda accepts is one of the
seventeen recognized root strings. -/
theorem rootTriple_mem (r : List Char) (x : List Char × List Char × String)
    (h : rootTriple r = some x) : r ∈ gRoots := by
  unfold rootTriple at h
  by_cases hg : ("gcc".toList).isPrefixOf r ∨ ("clang".toList).isPrefixOf r
  · rw [if_pos hg] at h
    by_cases hname :
        (if ("gcc".toList).isPrefixOf r then "gcc".toList else "clang".toList)
          ++ verSuffixOf r = r
    · rw [← hname]
      have hsfx := verSuffixOf_mem r
      simp only [List.mem_cons, List.not_mem_nil, or_false] at hsfx
      by_cases hgcc : ("gcc".toList).isPrefixOf r <;>
        simp only [hgcc, if_true, if_false, Bool.false_eq_true] <;>
        rcases hsfx with h | h | h | h | h | h | h | h <;>
        rw [h] <;> decide
    · rw [if_neg hname] at h
      cases h
  · rw [if_neg hg] at h
    by_cases hm : r = "msvc".toList
    · rw [hm]; decide
    · rw [if_neg hm] at h
      cases h

/-- C8 helper: assembling grammar membership from the four parts. -/
theorem mem_grammar_of_parts (dL cL vL rL : List Char)
    (hd : dL ∈ gTagD) (hc : cL ∈ gTagC) (hv : vL ∈ gTagV) (hr : rL ∈ gRoots) :
    dL ++ (cL ++ (vL ++ rL)) ∈ grammarStrings := by
  simp only [grammarStrings, List.mem_flatMap, List.mem_map]
  exact ⟨dL, hd, cL, hc, vL, hv, rL, hr, by simp⟩

set_option maxRecDepth 10000 in
set_option maxHeartbeats 1000000 in
/-- C8 helper: every string of the grammar is accepted end-to-end,
including the toolchain-content parse. -/
theorem grammar_all_accepted : grammarStrings.all returnsToolchain = true := by
  decide

/-- C8 counterexample: `get_builtin("msvc-13")` returns `nullopt`, although
`msvc-13` matches the claimed grammar
`(debug:)?(ccache:)?(c++(..):)?(gcc|clang|msvc)(-(7|..|13))?` — the source
accepts version suffixes only after `gcc`/`clang` and recognizes `msvc`
only bare (`toolchain.cpp` line 222). -/
theorem get_builtin_msvc13_counterexample :
    getBuiltin "msvc-13".toList = none ∧
    returnsToolchain "msvc-13".toList = false := by
  decide

/-- C8 (amended): `toolchain::get_builtin(id)` returns a toolchain exactly
when `id` matches the grammar
`(debug:)?(ccache:)?(c++(98|03|11|14|17|20):)?((gcc|clang)(-(7|8|9|10|11|12|13))?|msvc)`
— the optional tags in that order, and a version suffix only on
`gcc`/`clang` — and returns no toolchain for every other string. -/
theorem get_builtin_iff_grammar (s : List Char) :
    returnsToolchain s = true ↔ s ∈ grammarStrings := by
  constructor
  · intro h
    unfold returnsToolchain getBuiltin at h
    rcases hbs : builtinShape s with ⟨dbg, cc, ps, s3⟩
    rw [hbs] at h
    dsimp only at h
    rcases hrt : rootTriple s3 with _ | ⟨cN, x⟩
    · rw [hrt] at h
      simp at h
    · rw [hrt] at h
      dsimp only at h
      obtain ⟨sub, hsub, hps, hdecomp⟩ := builtinShape_decomp s dbg cc ps s3 hbs
      have hd : (if dbg then "debug:".toList else []) ∈ gTagD := by
        cases dbg <;> decide
      have hc : (if cc then "ccache:".toList else []) ∈ gTagC := by
        cases cc <;> decide
      have hr : s3 ∈ gRoots := rootTriple_mem s3 _ hrt
      rcases sub with _ | ⟨tv1, sub1⟩
      · rw [hdecomp]
        simpa using mem_grammar_of_parts _ _ [] s3 hd hc (by decide) hr
      · rcases sub1 with _ | ⟨tv2, sub2⟩
        · have htv : tv1 ∈ stdTags := hsub.subset (by simp)
          have hv : tv1.1 ∈ gTagV := by
            simp only [stdTags, List.mem_cons, List.not_mem_nil, or_false]
              at htv
            rcases htv with h1 | h1 | h1 | h1 | h1 | h1 <;> rw [h1] <;> decide
          rw [hdecomp]
          simpa using mem_grammar_of_parts _ _ tv1.1 s3 hd hc hv hr
        · exfalso
          rw [hps] at h
          simp only [List.map_cons] at h
          rw [parse_two_cxx_versions] at h
          simp at h
  · intro hmem
    exact List.all_eq_true.mp grammar_all_accepted s hmem

set_option maxRecDepth 10000 in
/-- C8 witness: the amended grammar equivalence applied to the fully
tagged id `debug:ccache:c++17:gcc-11`. -/
theorem get_builtin_iff_grammar_witness :
    returnsToolchain "debug:ccache:c++17:gcc-11".toList = true :=
  (get_builtin_iff_grammar _).mpr (by decide)

/-- C3 witness: the amended statement at a concrete document. -/
theorem external_include_template_shares_slot_witness :
    (({ includeTemplate := some ["-isystem", "<PATH>"] } :
        ToolchainOpts).externalIncludeTemplate = none) ∧
    (parseOpts [("External-Include-Template", "-isystem <PATH>")]
      = .ok { includeTemplate := some ["-isystem", "<PATH>"] }) :=
  ⟨external_include_template_shares_slot.1
      [("External-Include-Template", "-isystem <PATH>")]
      { includeTemplate := some ["-isystem", "<PATH>"] } (by decide),
    by
      have h := external_include_template_shares_slot.2 "-isystem <PATH>"
      rwa [show splitShell "-isystem <PATH>" = ["-isystem", "<PATH>"] from rfl] at h⟩

end Dds
